import Mathlib

/-!
# Verification of the colocfinder listing-lifecycle engine

Shallow embedding of the core of the `colocfinder` repository: the listing
store (`src/database.rs`), the notification/delivery logic and the button and
reaction handlers (`src/bot.rs`), the listing model (`src/models.rs`) and the
discovery loop of `src/main.rs`.  Timestamps (`chrono::DateTime<Utc>`) are
modelled as integers (minutes); `uuid::Uuid` surrogates are modelled as
natural numbers at the store level and as their canonical string rendering at
the footer-codec level.  Discord message ids are natural numbers.
-/

/-- Status enum `ListingStatus` from `src/database.rs` (lines 7-13). -/
inductive ListingStatus where
  | unchecked
  | interesting
  | verified
  | notGood
deriving DecidableEq, Repr

namespace ListingStatus

/-- Serializer `ListingStatus::to_string` from `src/database.rs` (lines 16-23). -/
def to_string : ListingStatus → String
  | unchecked => "unchecked"
  | interesting => "interesting"
  | verified => "verified"
  | notGood => "not_good"

/-- Parser `ListingStatus::from_string` from `src/database.rs` (lines 25-32):
any string other than the three non-default forms falls to `Unchecked`. -/
def from_string (s : String) : ListingStatus :=
  if s = "interesting" then interesting
  else if s = "verified" then verified
  else if s = "not_good" then notGood
  else unchecked

end ListingStatus

/-- Rust's `str::trim`, at the character-list level (`String.trim` is kept
out of the model because its byte-position implementation does not reduce
in the kernel).  Covers the whitespace characters of `Char.isWhitespace`,
a superset of everything a scraped title or a footer can carry. -/
def trimChars (xs : List Char) : List Char :=
  ((xs.dropWhile Char.isWhitespace).reverse.dropWhile Char.isWhitespace).reverse

/-- Scraped item `Listing` from `src/models.rs` (lines 5-16).  `f64` prices and surfaces
are modelled as rationals (only their presence is ever inspected by the core);
`DateTime<Utc>` timestamps are integers. -/
structure Listing where
  id : String
  title : String
  price : Option Rat
  surface : Option Rat
  location : String
  url : String
  image_url : Option String
  description : Option String
  posted_at : Int
  source : String
deriving DecidableEq

/-- Displayability test `Listing::has_sufficient_info` from `src/models.rs` (lines 20-24). -/
def Listing.has_sufficient_info (l : Listing) : Bool :=
  !(trimChars l.title.data).isEmpty && (l.price.isSome || l.surface.isSome)

/-- Persisted row `ListingRecord` from `src/database.rs` (lines 35-51), one row of the
`listings` table.  Surrogate `uuid`s are natural numbers; `posted_at` is kept
total (the schema column is nullable but the Rust struct and every insert
path carry a concrete timestamp). -/
structure ListingRecord where
  uuid : Nat
  listing_id : String
  title : String
  price : Option Rat
  surface : Option Rat
  location : String
  url : String
  image_url : Option String
  description : Option String
  posted_at : Int
  source : String
  status : ListingStatus
  scraped_at : Int
  main_channel_message_id : Option Nat
  interesting_channel_message_id : Option Nat
deriving DecidableEq

/-- The `listings` table of `src/database.rs`, as a list of rows. -/
abbrev Db := List ListingRecord

/-- Lookup `Database::get_listing_uuid_by_id` from `src/database.rs` (lines 149-159). -/
def get_listing_uuid_by_id (db : Db) (listing_id : String) : Option Nat :=
  (db.find? (fun r => r.listing_id = listing_id)).map (·.uuid)

/-- Dedup insert `Database::insert_or_get_listing` from `src/database.rs` (lines 103-136).
`fresh` stands for the freshly generated `Uuid::new_v4()`, `now` for
`Utc::now()`; returns the updated table and the surrogate. -/
def insert_or_get_listing (db : Db) (fresh : Nat) (now : Int) (l : Listing) :
    Db × Nat :=
  match get_listing_uuid_by_id db l.id with
  | some u => (db, u)
  | none =>
    (db ++ [{ uuid := fresh, listing_id := l.id, title := l.title,
              price := l.price, surface := l.surface, location := l.location,
              url := l.url, image_url := l.image_url,
              description := l.description, posted_at := l.posted_at,
              source := l.source, status := .unchecked, scraped_at := now,
              main_channel_message_id := none,
              interesting_channel_message_id := none }], fresh)

/-- Lookup `Database::get_listing_by_uuid` from `src/database.rs` (lines 162-193). -/
def get_listing_by_uuid (db : Db) (u : Nat) : Option ListingRecord :=
  db.find? (fun r => r.uuid = u)

/-- Update `Database::update_status` from `src/database.rs` (lines 196-202). -/
def update_status (db : Db) (u : Nat) (s : ListingStatus) : Db :=
  db.map (fun r => if r.uuid = u then { r with status := s } else r)

/-- Update `Database::set_main_channel_message_id` from `src/database.rs`
(lines 205-211). -/
def set_main_channel_message_id (db : Db) (u : Nat) (m : Nat) : Db :=
  db.map (fun r =>
    if r.uuid = u then { r with main_channel_message_id := some m } else r)

/-- Update `Database::set_interesting_channel_message_id` from `src/database.rs`
(lines 214-220). -/
def set_interesting_channel_message_id (db : Db) (u : Nat) (m : Nat) : Db :=
  db.map (fun r =>
    if r.uuid = u then { r with interesting_channel_message_id := some m }
    else r)

/-- Update `Database::clear_interesting_channel_message_id` from `src/database.rs`
(lines 223-229). -/
def clear_interesting_channel_message_id (db : Db) (u : Nat) : Db :=
  db.map (fun r =>
    if r.uuid = u then { r with interesting_channel_message_id := none }
    else r)

/-! ### Renderer and delivery (`src/bot.rs`) -/

/-- UTF-8 encoding of one character (the byte sequence Rust's `String`
stores), needed because `src/bot.rs` line 324 slices the description by
bytes. -/
def charUtf8 (c : Char) : List Nat :=
  let n := c.toNat
  if n < 128 then [n]
  else if n < 2048 then [192 + n / 64, 128 + n % 64]
  else if n < 65536 then [224 + n / 4096, 128 + (n / 64) % 64, 128 + n % 64]
  else [240 + n / 262144, 128 + (n / 4096) % 64, 128 + (n / 64) % 64,
        128 + n % 64]

/-- The UTF-8 bytes of a string: what Rust's `desc.len()` and `&desc[..300]`
operate on. -/
def strBytes (s : String) : List Nat :=
  (s.data.map charUtf8).flatten

/-- Rust's `str::is_char_boundary` at index `i` of byte sequence `bs`:
true at the end of the string or on any byte that is not a UTF-8
continuation byte (`0x80..=0xBF`). -/
def isCharBoundary (bs : List Nat) (i : Nat) : Bool :=
  match bs.get? i with
  | none => true
  | some b => !(128 ≤ b && b < 192)

/-- The description truncation of `send_listing_notification`
(`src/bot.rs` lines 322-329): `if desc.len() > 300 { format!("{}...",
&desc[..300]) } else { desc.clone() }`.  The result is the rendered byte
sequence; `none` models the panic of the byte slice `&desc[..300]` when
byte 300 is not a character boundary. -/
def truncate_description (s : String) : Option (List Nat) :=
  let bs := strBytes s
  if 300 < bs.length then
    if isCharBoundary bs 300 then some (bs.take 300 ++ strBytes "...")
    else none
  else some bs

/-- The `custom_id`s of the three buttons created in `src/bot.rs`. -/
inductive ButtonId where
  | interesting_listing
  | not_good_listing
  | remove_from_interesting
deriving DecidableEq

/-- One button of a message's action row, with its disabled flag. -/
structure Button where
  id : ButtonId
  disabled : Bool
deriving DecidableEq

/-- The embed fields added in `src/bot.rs` lines 289-316 (price, surface,
posted time); the human-readable formatting is abstracted, the carried
values and their order are kept. -/
inductive FieldTag where
  | prix (p : Rat)
  | surface (s : Rat)
  | publie (t : Int)
deriving DecidableEq

/-- The rendered embed of a listing message.  The footer text
`"Source: {source} | ID: {uuid}"` is carried as its decoded correlation
content (source name and surrogate); the string-level codec is modelled
separately below.  The description is carried at the UTF-8 byte level
(see `truncate_description`). -/
structure Embed where
  title : Option String
  url : Option String
  color : Nat × Nat × Nat
  image : Option String
  description : Option (List Nat)
  fieldTags : List FieldTag
  footerUuid : Option Nat
  timestamp : Option Int
deriving DecidableEq

/-- A posted listing message: embed plus action-row buttons. -/
structure Msg where
  embed : Embed
  components : List Button
deriving DecidableEq

/-- Outcome of `send_listing_notification`: skipped because a Discord
message already exists, suppressed (insufficient info, sentinel written),
or posted with the given message. -/
inductive SendOutcome where
  | skippedAlready
  | suppressed
  | posted (m : Msg)
deriving DecidableEq

/-- Dark red accent `Colour::from_rgb(139, 0, 0)` used for unchecked
listings. -/
def darkRed : Nat × Nat × Nat := (139, 0, 0)

/-- Purple accent `Colour::from_rgb(128, 0, 128)` for interesting
listings. -/
def purpleCol : Nat × Nat × Nat := (128, 0, 128)

/-- Black accent `Colour::from_rgb(0, 0, 0)` for not-good listings. -/
def blackCol : Nat × Nat × Nat := (0, 0, 0)

/-- The price/surface/time fields built in `src/bot.rs` lines 289-316. -/
def renderFields (l : Listing) : List FieldTag :=
  (match l.price with | some p => [.prix p] | none => []) ++
  (match l.surface with | some s => [.surface s] | none => []) ++
  [.publie l.posted_at]

/-- Delivery `send_listing_notification` from `src/bot.rs` (lines 242-367), on its
success path against the messaging transport.  `newMsgId` is the id Discord
assigns to the posted message.  The outer `none` models a rendering panic
(description byte slice); all store checks happen before rendering, as in
the source. -/
def send_listing_notification (db : Db) (l : Listing) (u : Nat)
    (newMsgId : Nat) : Option (Db × SendOutcome) :=
  let alreadySent :=
    match get_listing_by_uuid db u with
    | some r => r.main_channel_message_id.isSome
    | none => false
  if alreadySent then some (db, .skippedAlready)
  else if !l.has_sufficient_info then
    some (set_main_channel_message_id db u 0, .suppressed)
  else
    let desc? : Option (Option (List Nat)) :=
      match l.description with
      | none => some none
      | some d => (truncate_description d).map some
    match desc? with
    | none => none
    | some desc =>
      let e : Embed :=
        { title := some l.title, url := some l.url, color := darkRed,
          image := l.image_url, description := desc,
          fieldTags := renderFields l, footerUuid := some u,
          timestamp := some l.posted_at }
      let msg : Msg :=
        { embed := e,
          components := [⟨.interesting_listing, false⟩,
                         ⟨.not_good_listing, false⟩] }
      some (set_main_channel_message_id db u newMsgId, .posted msg)

/-- One iteration of the scraping loop body of `src/main.rs`
(lines 184-203): listings without sufficient info are skipped with
`continue` before any store access; the rest are inserted (the loop's
subsequent `get_listing_by_uuid` only counts and does not mutate). -/
def scrapeProcess (db : Db) (fresh : Nat) (now : Int) (l : Listing) : Db :=
  if !l.has_sufficient_info then db
  else (insert_or_get_listing db fresh now l).1

/-! ### Undelivered query and housekeeping (`src/database.rs`) -/

/-- The SQL of `Database::get_new_listings` (lines 234-240):
`WHERE main_channel_message_id IS NULL ORDER BY scraped_at DESC`.
SQLite's ordering is modelled by insertion sort under the
newest-scrape-first relation `newerScrape`. -/
def newerScrape (a b : ListingRecord) : Prop :=
  b.scraped_at ≤ a.scraped_at

instance : DecidableRel newerScrape :=
  fun a b => inferInstanceAs (Decidable (b.scraped_at ≤ a.scraped_at))

instance : IsTotal ListingRecord newerScrape :=
  ⟨fun a b => le_total b.scraped_at a.scraped_at⟩

instance : IsTrans ListingRecord newerScrape :=
  ⟨fun _ _ _ h1 h2 => le_trans h2 h1⟩

def newListingRows (db : Db) : List ListingRecord :=
  List.insertionSort newerScrape
    (db.filter (fun r => r.main_channel_message_id = none))

/-- The row-to-`Listing` conversion of `get_new_listings`'s `query_map`. -/
def rowToListing (r : ListingRecord) : Listing :=
  { id := r.listing_id, title := r.title, price := r.price,
    surface := r.surface, location := r.location, url := r.url,
    image_url := r.image_url, description := r.description,
    posted_at := r.posted_at, source := r.source }

/-- Query `Database::get_new_listings` from `src/database.rs` (lines 233-279):
the SQL query above followed by the Rust-side age filter
`now.signed_duration_since(listing.posted_at) > max_age → drop`. -/
def get_new_listings (db : Db) (max_listing_age_minutes : Nat) (now : Int) :
    List (Nat × Listing) :=
  ((newListingRows db).map (fun r => (r.uuid, rowToListing r))).filter
    (fun p => !(now - p.2.posted_at > (max_listing_age_minutes : Int)))

/-- Sweep `Database::cleanup_old_listings` from `src/database.rs` (lines 283-300):
`DELETE FROM listings WHERE main_channel_message_id IS NULL AND posted_at IS
NOT NULL AND posted_at < now - max_age`; returns the surviving table and the
deleted count.  (`posted_at` is total in this model, matching the Rust
struct and every insert path, so the `IS NOT NULL` guard is vacuous.) -/
def cleanup_old_listings (db : Db) (max_listing_age_minutes : Nat)
    (now : Int) : Db × Nat :=
  let cutoff := now - (max_listing_age_minutes : Int)
  let kept := db.filter (fun r =>
    !(r.main_channel_message_id = none ∧ r.posted_at < cutoff))
  (kept, db.length - kept.length)

/-! ### The undo reaction handler (`src/bot.rs`) -/

/-- Handler `handle_red_x_reaction` from `src/bot.rs` (lines 379-466), on its
success path: given the store and the reacted-on primary message, returns
the updated store, the edited message, and whether the triggering reaction
was removed.  Mirrors the source: the correlation id is read from the
footer; if the current embed shows no image, the stored image URL is
fetched and the status reset to Unchecked; the embed is rebuilt dark red
with every displayed field copied, the image restored, and both buttons
re-attached; finally the reaction is deleted. -/
def handle_red_x_reaction (db : Db) (m : Msg) : Db × Msg × Bool :=
  let uuid? := m.embed.footerUuid
  let restore : Option String × Db :=
    match uuid? with
    | some u =>
      if m.embed.image = none then
        (match get_listing_by_uuid db u with
         | some r => r.image_url
         | none => none,
         update_status db u .unchecked)
      else (none, db)
    | none => (none, db)
  let newImage :=
    match m.embed.image with
    | some i => some i
    | none => restore.1
  let newEmbed : Embed :=
    { title := m.embed.title, url := m.embed.url, color := darkRed,
      image := newImage, description := m.embed.description,
      fieldTags := m.embed.fieldTags, footerUuid := m.embed.footerUuid,
      timestamp := m.embed.timestamp }
  let newMsg : Msg :=
    { embed := newEmbed,
      components := [⟨.interesting_listing, false⟩,
                     ⟨.not_good_listing, false⟩] }
  (restore.2, newMsg, true)

/-! ### Per-record lifecycle state machine

The button and reaction handlers of `src/bot.rs` drive one record's
persisted fields (`status`, `main_channel_message_id`,
`interesting_channel_message_id`) and its primary-channel message (embed
image, attached buttons).  `MState` is that per-record state;
`Step` has one constructor per handler, each on its success path, guarded
by the conditions under which Discord can deliver the corresponding
interaction (a component interaction only originates from a button that is
attached and enabled; a reaction only targets an existing message, so not
the sentinel id 0). -/
structure MState where
  status : ListingStatus
  mainRef : Option Nat
  secRef : Option Nat
  mainButtons : List Button
  mainImage : Option String
  imageUrl : Option String
  displayable : Bool
deriving DecidableEq

/-- Both main-channel buttons enabled, as attached by
`send_listing_notification` and re-attached by the handlers. -/
def bothButtons : List Button :=
  [⟨.interesting_listing, false⟩, ⟨.not_good_listing, false⟩]

/-- A record right after `insert_or_get_listing`: status Unchecked, both
message refs unset, no primary message. -/
def initState (img : Option String) (d : Bool) : MState :=
  { status := .unchecked, mainRef := none, secRef := none,
    mainButtons := [], mainImage := none, imageUrl := img, displayable := d }

/-- Effect of a displayable delivery (`send_listing_notification`,
`src/bot.rs` lines 272-364): post the embed (image = stored image URL),
attach both buttons, record the message id. -/
def deliverEffect (s : MState) (msgId : Nat) : MState :=
  { s with mainRef := some msgId, mainButtons := bothButtons,
           mainImage := s.imageUrl }

/-- Effect of a suppressed delivery (`src/bot.rs` lines 262-270): write the
sentinel message id 0, post nothing. -/
def suppressEffect (s : MState) : MState :=
  { s with mainRef := some 0 }

/-- Effect of `handle_interesting_button` (`src/bot.rs` lines 468-607):
status → Interesting, mirror message posted and its id stored, primary
message re-rendered purple with "Intéressant" disabled and "Pas bien"
kept enabled. -/
def interestingEffect (s : MState) (secMsg : Nat) : MState :=
  { s with status := .interesting, secRef := some secMsg,
           mainButtons := [⟨.interesting_listing, true⟩,
                           ⟨.not_good_listing, false⟩] }

/-- Effect of `handle_remove_from_interesting_button` (`src/bot.rs`
lines 609-717): status → Unchecked, secondary message deleted and its id
cleared, primary message re-rendered dark red with both buttons
re-enabled. -/
def removeEffect (s : MState) : MState :=
  { s with status := .unchecked, secRef := none, mainButtons := bothButtons }

/-- Effect of `handle_not_good_button` (`src/bot.rs` lines 719-781):
status → NotGood, primary message re-rendered black with the image omitted
and all buttons removed.  The handler never touches
`interesting_channel_message_id`. -/
def notGoodEffect (s : MState) : MState :=
  { s with status := .notGood, mainButtons := [], mainImage := none }

/-- Effect of `handle_red_x_reaction` (`src/bot.rs` lines 379-466): when
the displayed embed has no image, status → Unchecked and the image is
restored from the stored image URL; either way the message is re-rendered
dark red with both buttons re-attached. -/
def redXEffect (s : MState) : MState :=
  if s.mainImage = none then
    { s with status := .unchecked, mainImage := s.imageUrl,
             mainButtons := bothButtons }
  else
    { s with mainButtons := bothButtons }

/-- The transitions implemented in `src/bot.rs` / `src/main.rs`, each on
its success path. -/
inductive Step : MState → MState → Prop where
  | deliver (s : MState) (msgId : Nat) (h1 : s.mainRef = none)
      (h2 : s.displayable = true) (h3 : msgId ≠ 0) :
      Step s (deliverEffect s msgId)
  | suppress (s : MState) (h1 : s.mainRef = none)
      (h2 : s.displayable = false) :
      Step s (suppressEffect s)
  | interestingBtn (s : MState) (secMsg : Nat)
      (h : (⟨.interesting_listing, false⟩ : Button) ∈ s.mainButtons) :
      Step s (interestingEffect s secMsg)
  | removeBtn (s : MState) (h : s.secRef.isSome) :
      Step s (removeEffect s)
  | notGoodBtn (s : MState)
      (h : (⟨.not_good_listing, false⟩ : Button) ∈ s.mainButtons) :
      Step s (notGoodEffect s)
  | redX (s : MState) (m : Nat) (h1 : s.mainRef = some m) (h2 : m ≠ 0) :
      Step s (redXEffect s)

/-- States reachable from a freshly inserted record. -/
inductive Reachable : MState → Prop where
  | init (img : Option String) (d : Bool) : Reachable (initState img d)
  | step {s s' : MState} : Reachable s → Step s s' → Reachable s'

/-! ### Correlation codec (`src/bot.rs` footer encode / decode)

Strings are handled at the character-list level here, because the proofs
have to track individual delimiter occurrences.  `splitSep` models Rust's
`str::split` with a literal (non-empty) pattern; `trimChars` models
`str::trim` (on the whitespace characters Lean's `Char.isWhitespace`
covers, a superset of every character a footer can carry). -/

/-- Does `sep` occur right at the head of `xs`? (Rust pattern match at the
current position of `str::split`.) -/
def leadMatch : List Char → List Char → Bool
  | [], _ => true
  | _ :: _, [] => false
  | a :: as, b :: bs => a = b && leadMatch as bs

/-- Worker for `splitSep`; `fuel` only bounds recursion depth and is
always sufficient when called through `splitSep`. -/
def splitGo (sep : List Char) : Nat → List Char → List Char → List (List Char)
  | _, [], acc => [acc.reverse]
  | 0, xs, acc => [acc.reverse ++ xs]
  | fuel + 1, x :: xs, acc =>
    if leadMatch sep (x :: xs) then
      acc.reverse :: splitGo sep fuel ((x :: xs).drop sep.length) []
    else
      splitGo sep fuel xs (x :: acc)

/-- Rust's `str::split` on a literal pattern, as used by
`extract_uuid_from_footer`. -/
def splitSep (sep xs : List Char) : List (List Char) :=
  splitGo sep (xs.length + 1) xs []

/-- A lowercase hexadecimal digit. -/
def isHexLowerDigit (c : Char) : Bool :=
  ('0' ≤ c && c ≤ '9') || ('a' ≤ c && c ≤ 'f')

/-- The canonical hyphenated lowercase rendering of a UUID
(8-4-4-4-12 hex digits), the form `Uuid::new_v4().to_string()` produces
and the footer embeds. -/
def isUuidCanonical (cs : List Char) : Bool :=
  cs.length = 36 &&
  (List.range 36).all (fun i =>
    if i = 8 ∨ i = 13 ∨ i = 18 ∨ i = 23 then cs.getD i ' ' = '-'
    else isHexLowerDigit (cs.getD i ' '))

/-- Models `uuid::Uuid::parse_str(..).ok()` restricted to the canonical
hyphenated lowercase form — the only rendering the footer encoder ever
produces (`parse_str` additionally accepts other spellings of a UUID,
which no encoded footer contains). -/
def parseUuid (cs : List Char) : Option (List Char) :=
  if isUuidCanonical cs then some cs else none

/-- The literal delimiter `" | ID: "` of the footer format. -/
def sepChars : List Char := (" | ID: ").data

/-- The footer encoder of `send_listing_notification` (`src/bot.rs` line
335): `format!("Source: {} | ID: {}", listing.source, uuid)`. -/
def encodeFooter (source uuid : List Char) : List Char :=
  ("Source: ").data ++ source ++ sepChars ++ uuid

/-- Decoder `extract_uuid_from_footer` from `src/bot.rs` (lines 370-377):
`footer_text.split(" | ID: ").nth(1)`, trimmed and parsed as a UUID;
`None` on any failure. -/
def extract_uuid_from_footer (footer : List Char) : Option (List Char) :=
  match (splitSep sepChars footer).get? 1 with
  | some part => parseUuid (trimChars part)
  | none => none

/-- Occurrence scan: `sep` occurs nowhere in `xs` (bounded, hence executable: positions
beyond `xs.length` see the empty suffix, covered by position
`xs.length`). -/
def occursIn (sep xs : List Char) : Bool :=
  (List.range (xs.length + 1)).any (fun i => leadMatch sep (xs.drop i))

/-- No occurrence of `sep` inside `pre ++ tail` starts strictly before the
end of `pre`. -/
def noSepBefore (sep pre tail : List Char) : Bool :=
  (List.range pre.length).all (fun i => !(leadMatch sep ((pre ++ tail).drop i)))

/-- Inductive invariant of the per-record lifecycle: Interesting records
hold a secondary message id; NotGood primary messages have no buttons and
no image; a record without (or with only the sentinel) primary message id
is still Unchecked, button-less and mirror-less; Verified is never
assigned. -/
def LifecycleInv (s : MState) : Prop :=
  (s.status = .interesting → s.secRef.isSome) ∧
  (s.status = .notGood → s.mainButtons = [] ∧ s.mainImage = none) ∧
  (s.mainRef = none →
    s.mainButtons = [] ∧ s.status = .unchecked ∧ s.secRef = none ∧
    s.mainImage = none) ∧
  (s.mainRef = some 0 →
    s.mainButtons = [] ∧ s.status = .unchecked ∧ s.secRef = none ∧
    s.mainImage = none) ∧
  s.status ≠ .verified

/-- C10: for each of the four declared status values,
`from_string (to_string s) = s`, and parsing any string other than the three
non-default serialized forms ("interesting", "verified", "not_good") returns
`Unchecked`, so a record loaded from the store always carries a valid status. -/
theorem status_serialization_roundtrip :
    (∀ s : ListingStatus, ListingStatus.from_string s.to_string = s) ∧
    (∀ str : String, str ≠ "interesting" → str ≠ "verified" → str ≠ "not_good" →
      ListingStatus.from_string str = ListingStatus.unchecked) := by
  constructor
  · intro s
    cases s <;> rfl
  · intro str h1 h2 h3
    simp [ListingStatus.from_string, h1, h2, h3]

/-- Closed instantiation of `status_serialization_roundtrip`. -/
theorem status_serialization_roundtrip_witness :
    ListingStatus.from_string (ListingStatus.to_string .verified) = .verified ∧
    ListingStatus.from_string "garbage" = .unchecked :=
  ⟨status_serialization_roundtrip.1 .verified,
   status_serialization_roundtrip.2 "garbage" (by decide) (by decide) (by decide)⟩

/-! ## Store idempotency and delivery-once (C2) -/

/-- After an insert, looking the identity up again finds exactly the
surrogate the insert returned. -/
theorem get_uuid_after_insert (db : Db) (f : Nat) (n : Int) (l : Listing)
    (lid : String) (hid : lid = l.id) :
    get_listing_uuid_by_id (insert_or_get_listing db f n l).1 lid
      = some (insert_or_get_listing db f n l).2 := by
  subst hid
  unfold insert_or_get_listing
  rcases hfind : get_listing_uuid_by_id db l.id with _ | u
  · simp only [hfind]
    unfold get_listing_uuid_by_id at hfind ⊢
    have hnone : db.find? (fun r => decide (r.listing_id = l.id)) = none := by
      cases hf : db.find? (fun r => decide (r.listing_id = l.id)) with
      | none => rfl
      | some r => rw [hf] at hfind; simp at hfind
    rw [List.find?_append, hnone]
    rw [List.find?_cons_of_pos _ (by simp)]
    rfl
  · simp only [hfind]

/-- C2: inserting the same listing identity twice returns the same
surrogate and leaves the table unchanged (no second record); and once a
record's `main_channel_message_id` is set — sentinel 0 included — a
repeated delivery for it returns without posting and without touching the
store. -/
theorem insert_idempotent_delivery_once :
    (∀ (db : Db) (f1 f2 : Nat) (n1 n2 : Int) (l1 l2 : Listing),
      l1.id = l2.id →
      insert_or_get_listing (insert_or_get_listing db f1 n1 l1).1 f2 n2 l2
        = insert_or_get_listing db f1 n1 l1) ∧
    (∀ (db : Db) (l : Listing) (u msgId : Nat) (r : ListingRecord),
      get_listing_by_uuid db u = some r →
      r.main_channel_message_id.isSome = true →
      send_listing_notification db l u msgId = some (db, .skippedAlready)) := by
  constructor
  · intro db f1 f2 n1 n2 l1 l2 hid
    conv_lhs => rw [insert_or_get_listing]
    rw [get_uuid_after_insert db f1 n1 l1 l2.id hid.symm]
  · intro db l u msgId r h1 h2
    unfold send_listing_notification
    rw [h1]
    simp [h2]

/-- Closed instantiation of `insert_idempotent_delivery_once`. -/
theorem insert_idempotent_delivery_once_witness :
    insert_or_get_listing
        (insert_or_get_listing [] 1 10
          ⟨"lbc_1", "Studio", some 650, none, "Lyon", "u1", none, none, 5,
           "leboncoin"⟩).1 2 20
        ⟨"lbc_1", "Studio", some 650, none, "Lyon", "u1", none, none, 5,
         "leboncoin"⟩
      = insert_or_get_listing [] 1 10
          ⟨"lbc_1", "Studio", some 650, none, "Lyon", "u1", none, none, 5,
           "leboncoin"⟩ ∧
    send_listing_notification
        [⟨7, "lbc_1", "Studio", some 650, none, "Lyon", "u1", none, none, 5,
          "leboncoin", .unchecked, 10, some 3, none⟩]
        ⟨"lbc_1", "Studio", some 650, none, "Lyon", "u1", none, none, 5,
         "leboncoin"⟩ 7 99
      = some ([⟨7, "lbc_1", "Studio", some 650, none, "Lyon", "u1", none,
               none, 5, "leboncoin", .unchecked, 10, some 3, none⟩],
              .skippedAlready) :=
  ⟨insert_idempotent_delivery_once.1 [] 1 2 10 20 _ _ rfl,
   insert_idempotent_delivery_once.2 _ _ 7 99
     ⟨7, "lbc_1", "Studio", some 650, none, "Lyon", "u1", none, none, 5,
      "leboncoin", .unchecked, 10, some 3, none⟩ rfl rfl⟩

/-! ## Non-displayable listings (C3) -/

/-- C3 counterexample: a discovered listing with an empty title (not
displayable) is *not* accepted into the store — the scraping loop of
`src/main.rs` skips it with `continue` before any insert, so no record is
created for it. -/
theorem non_displayable_not_inserted :
    (Listing.has_sufficient_info
      ⟨"lbc_9", "", none, none, "Lyon", "u9", none, none, 0, "leboncoin"⟩)
      = false ∧
    scrapeProcess [] 5 0
      ⟨"lbc_9", "", none, none, "Lyon", "u9", none, none, 0, "leboncoin"⟩
      = [] ∧
    get_listing_uuid_by_id
      (scrapeProcess [] 5 0
        ⟨"lbc_9", "", none, none, "Lyon", "u9", none, none, 0, "leboncoin"⟩)
      "lbc_9" = none := by
  refine ⟨rfl, rfl, rfl⟩

/-- C3 amended: a non-displayable listing is skipped by the discovery loop
before insertion (no record is created); and if a delivery is ever
attempted for a stored, still-undelivered non-displayable record, nothing
is rendered and its primary message id is set to the sentinel 0, so it is
never retried. -/
theorem non_displayable_suppression :
    (∀ (db : Db) (fresh : Nat) (now : Int) (l : Listing),
      l.has_sufficient_info = false → scrapeProcess db fresh now l = db) ∧
    (∀ (db : Db) (l : Listing) (u msgId : Nat) (r : ListingRecord),
      get_listing_by_uuid db u = some r →
      r.main_channel_message_id = none →
      l.has_sufficient_info = false →
      send_listing_notification db l u msgId =
        some (set_main_channel_message_id db u 0, .suppressed)) := by
  constructor
  · intro db fresh now l h
    simp [scrapeProcess, h]
  · intro db l u msgId r h1 h2 h3
    unfold send_listing_notification
    rw [h1]
    simp [h2, h3]

/-- Closed instantiation of `non_displayable_suppression`. -/
theorem non_displayable_suppression_witness :
    scrapeProcess
        [⟨3, "lbc_2", "T2", none, none, "Lyon", "u2", none, none, 0,
          "leboncoin", .unchecked, 1, none, none⟩] 8 4
        ⟨"lbc_2", "T2", none, none, "Lyon", "u2", none, none, 0, "leboncoin"⟩
      = [⟨3, "lbc_2", "T2", none, none, "Lyon", "u2", none, none, 0,
          "leboncoin", .unchecked, 1, none, none⟩] ∧
    send_listing_notification
        [⟨3, "lbc_2", "T2", none, none, "Lyon", "u2", none, none, 0,
          "leboncoin", .unchecked, 1, none, none⟩]
        ⟨"lbc_2", "T2", none, none, "Lyon", "u2", none, none, 0, "leboncoin"⟩
        3 50
      = some
          (set_main_channel_message_id
            [⟨3, "lbc_2", "T2", none, none, "Lyon", "u2", none, none, 0,
              "leboncoin", .unchecked, 1, none, none⟩] 3 0,
           .suppressed) :=
  ⟨non_displayable_suppression.1 _ 8 4 _ rfl,
   non_displayable_suppression.2 _ _ 3 50
     ⟨3, "lbc_2", "T2", none, none, "Lyon", "u2", none, none, 0,
      "leboncoin", .unchecked, 1, none, none⟩ rfl rfl rfl⟩

/-! ## Housekeeping sweep (C8) -/

/-- C8: the housekeeping sweep keeps a record exactly when it is not
(undelivered and posted before the cutoff `now - maxAge`); in particular a
record whose primary message id is set is never deleted. -/
theorem purge_stale_contract (db : Db) (maxAge : Nat) (now : Int)
    (r : ListingRecord) (hr : r ∈ db) :
    (r ∈ (cleanup_old_listings db maxAge now).1 ↔
      ¬(r.main_channel_message_id = none ∧
        r.posted_at < now - (maxAge : Int))) ∧
    (r.main_channel_message_id.isSome = true →
      r ∈ (cleanup_old_listings db maxAge now).1) := by
  have hmem : r ∈ (cleanup_old_listings db maxAge now).1 ↔
      ¬(r.main_channel_message_id = none ∧
        r.posted_at < now - (maxAge : Int)) := by
    simp only [cleanup_old_listings, List.mem_filter, hr, true_and,
      decide_not, Bool.not_eq_eq_eq_not, Bool.not_true, decide_eq_false_iff_not]
  refine ⟨hmem, fun h => hmem.2 ?_⟩
  rintro ⟨hnone, -⟩
  rw [hnone] at h
  simp at h

/-- Closed instantiation of `purge_stale_contract`. -/
theorem purge_stale_contract_witness :
    (⟨4, "lbc_3", "T3", some 1, none, "Lyon", "u3", none, none, 0,
      "leboncoin", .unchecked, 2, some 11, none⟩ : ListingRecord) ∈
      (cleanup_old_listings
        [⟨4, "lbc_3", "T3", some 1, none, "Lyon", "u3", none, none, 0,
          "leboncoin", .unchecked, 2, some 11, none⟩] 60 10000).1 :=
  (purge_stale_contract _ 60 10000 _ (by simp)).2 rfl

/-! ## Undo trigger (C6) -/

/-- Updating the status of surrogate `u` changes exactly the status of the
record the lookup returns. -/
theorem get_after_update_status (db : Db) (u : Nat) (s : ListingStatus) :
    get_listing_by_uuid (update_status db u s) u
      = (get_listing_by_uuid db u).map (fun r => { r with status := s }) := by
  induction db with
  | nil => rfl
  | cons r0 db ih =>
    simp only [update_status, get_listing_by_uuid, List.map_cons,
      List.find?_cons] at ih ⊢
    by_cases h : r0.uuid = u
    · simp [h]
    · simp [h, ih]

/-- C6: on a record whose stored image URL is known and whose primary
message currently renders without an image, the undo reaction resets the
status to Unchecked, re-renders the message with exactly the stored image
URL and both controls re-attached, and removes the triggering
reaction. -/
theorem undo_restores_image (db : Db) (m : Msg) (u : Nat)
    (r : ListingRecord) (img : String)
    (h1 : m.embed.footerUuid = some u)
    (h2 : get_listing_by_uuid db u = some r)
    (h3 : r.image_url = some img)
    (h4 : m.embed.image = none) :
    ((get_listing_by_uuid (handle_red_x_reaction db m).1 u).map (·.status)
        = some .unchecked) ∧
    (handle_red_x_reaction db m).2.1.embed.image = some img ∧
    (handle_red_x_reaction db m).2.1.components = bothButtons ∧
    (handle_red_x_reaction db m).2.2 = true := by
  have hup := get_after_update_status db u .unchecked
  rw [h2] at hup
  simp [handle_red_x_reaction, h1, h2, h3, h4, hup, bothButtons]

/-- Closed instantiation of `undo_restores_image`. -/
theorem undo_restores_image_witness :
    ((get_listing_by_uuid
        (handle_red_x_reaction
          [⟨6, "lbc_4", "T4", some 2, none, "Lyon", "u4", some "img4", none,
            0, "leboncoin", .notGood, 3, some 21, none⟩]
          ⟨⟨some "T4", some "u4", blackCol, none, none, [], some 6, some 0⟩,
           []⟩).1 6).map (·.status) = some .unchecked) ∧
    (handle_red_x_reaction
        [⟨6, "lbc_4", "T4", some 2, none, "Lyon", "u4", some "img4", none,
          0, "leboncoin", .notGood, 3, some 21, none⟩]
        ⟨⟨some "T4", some "u4", blackCol, none, none, [], some 6, some 0⟩,
         []⟩).2.1.embed.image = some "img4" :=
  have h := undo_restores_image
    [⟨6, "lbc_4", "T4", some 2, none, "Lyon", "u4", some "img4", none, 0,
      "leboncoin", .notGood, 3, some 21, none⟩]
    ⟨⟨some "T4", some "u4", blackCol, none, none, [], some 6, some 0⟩, []⟩
    6
    ⟨6, "lbc_4", "T4", some 2, none, "Lyon", "u4", some "img4", none, 0,
     "leboncoin", .notGood, 3, some 21, none⟩
    "img4" rfl rfl rfl rfl
  ⟨h.1, h.2.1⟩

/-! ## Undelivered-listings query (C7) -/

/-- C7 counterexample: `get_new_listings` *does* age-filter.  A record with
no primary message id whose posting time is 1000 minutes in the past is not
returned under a 10-minute maximum age, so the query does not return
"exactly the records whose primary message reference is unset". -/
theorem get_new_listings_age_filters :
    (⟨1, "lbc_5", "T5", some 1, none, "Lyon", "u5", none, none, 0,
      "leboncoin", .unchecked, 0, none, none⟩
        : ListingRecord).main_channel_message_id = none ∧
    get_new_listings
      [⟨1, "lbc_5", "T5", some 1, none, "Lyon", "u5", none, none, 0,
        "leboncoin", .unchecked, 0, none, none⟩] 10 1000 = [] := by
  constructor
  · rfl
  · decide

/-- C7 amended: `get_new_listings` returns exactly the pairs
`(uuid, listing)` of records whose primary message id is unset *and* whose
posting time is within the configured maximum age of `now` (the age filter
lives inside the query, not in its callers), and the underlying row
sequence is ordered newest `scraped_at` first. -/
theorem get_new_listings_contract :
    (∀ (db : Db) (maxAge : Nat) (now : Int) (p : Nat × Listing),
      p ∈ get_new_listings db maxAge now ↔
        ∃ r, r ∈ db ∧ r.main_channel_message_id = none ∧
          ¬(now - r.posted_at > (maxAge : Int)) ∧
          p = (r.uuid, rowToListing r)) ∧
    (∀ (db : Db) (maxAge : Nat) (now : Int),
      get_new_listings db maxAge now =
        ((newListingRows db).filter
          (fun r => !(now - r.posted_at > (maxAge : Int)))).map
          (fun r => (r.uuid, rowToListing r)) ∧
      List.Sorted newerScrape
        ((newListingRows db).filter
          (fun r => !(now - r.posted_at > (maxAge : Int))))) := by
  have heq : ∀ (db : Db) (maxAge : Nat) (now : Int),
      get_new_listings db maxAge now =
        ((newListingRows db).filter
          (fun r => !(now - r.posted_at > (maxAge : Int)))).map
          (fun r => (r.uuid, rowToListing r)) := by
    intro db maxAge now
    unfold get_new_listings
    rw [List.filter_map]
    rfl
  constructor
  · intro db maxAge now p
    rw [heq]
    simp only [List.mem_map, List.mem_filter]
    constructor
    · rintro ⟨r, ⟨hrows, hage⟩, rfl⟩
      have hr : r ∈ db ∧ r.main_channel_message_id = none := by
        have := (List.perm_insertionSort newerScrape
          (db.filter (fun r => r.main_channel_message_id = none))).mem_iff.1
          hrows
        simpa using this
      refine ⟨r, hr.1, hr.2, ?_, rfl⟩
      simpa using hage
    · rintro ⟨r, hdb, hnone, hage, rfl⟩
      refine ⟨r, ⟨?_, by simpa using hage⟩, rfl⟩
      exact (List.perm_insertionSort newerScrape _).mem_iff.2
        (by simp [hnone, hdb])
  · intro db maxAge now
    refine ⟨heq db maxAge now, ?_⟩
    exact (List.sorted_insertionSort newerScrape _).filter _

/-! ## Lifecycle state machine (C4, C5) -/

/-- The lifecycle invariant holds at record creation. -/
theorem lifecycle_inv_init (img : Option String) (d : Bool) :
    LifecycleInv (initState img d) := by
  simp [LifecycleInv, initState]

/-- Every implemented transition preserves the lifecycle invariant. -/
theorem lifecycle_inv_step {s s' : MState} (hInv : LifecycleInv s)
    (hst : Step s s') : LifecycleInv s' := by
  obtain ⟨h1, h2, h3, h4, h5⟩ := hInv
  cases hst with
  | deliver msgId p1 p2 p3 =>
    obtain ⟨b0, st0, se0, im0⟩ := h3 p1
    simp only [LifecycleInv, deliverEffect]
    refine ⟨fun h => ?_, fun h => ?_, fun h => ?_, fun h => ?_, ?_⟩
    · rw [st0] at h; cases h
    · rw [st0] at h; cases h
    · cases h
    · exact absurd (Option.some.inj h) p3
    · rw [st0]; decide
  | suppress p1 p2 =>
    obtain ⟨b0, st0, se0, im0⟩ := h3 p1
    simp only [LifecycleInv, suppressEffect]
    refine ⟨fun h => ?_, fun h => ?_, fun h => ?_, fun _ => ?_, ?_⟩
    · rw [st0] at h; cases h
    · rw [st0] at h; cases h
    · cases h
    · exact ⟨b0, st0, se0, im0⟩
    · rw [st0]; decide
  | interestingBtn secMsg p =>
    have href : s.mainRef ≠ none := fun h => by
      rw [(h3 h).1] at p; cases p
    have href0 : s.mainRef ≠ some 0 := fun h => by
      rw [(h4 h).1] at p; cases p
    simp only [LifecycleInv, interestingEffect]
    refine ⟨fun _ => rfl, ?_, ?_, ?_, by decide⟩
    · intro h; exact absurd h (by decide)
    · intro h; exact absurd h href
    · intro h; exact absurd h href0
  | removeBtn p =>
    have href : s.mainRef ≠ none := fun h => by
      rw [(h3 h).2.2.1] at p; cases p
    have href0 : s.mainRef ≠ some 0 := fun h => by
      rw [(h4 h).2.2.1] at p; cases p
    simp only [LifecycleInv, removeEffect]
    refine ⟨?_, ?_, ?_, ?_, by decide⟩
    · intro h; exact absurd h (by decide)
    · intro h; exact absurd h (by decide)
    · intro h; exact absurd h href
    · intro h; exact absurd h href0
  | notGoodBtn p =>
    have href : s.mainRef ≠ none := fun h => by
      rw [(h3 h).1] at p; cases p
    have href0 : s.mainRef ≠ some 0 := fun h => by
      rw [(h4 h).1] at p; cases p
    simp only [LifecycleInv, notGoodEffect]
    refine ⟨?_, fun _ => by simp, ?_, ?_, by decide⟩
    · intro h; exact absurd h (by decide)
    · intro h; exact absurd h href
    · intro h; exact absurd h href0
  | redX m p1 p2 =>
    have href : s.mainRef ≠ none := fun h => by rw [h] at p1; cases p1
    have href0 : s.mainRef ≠ some 0 := fun h => by
      rw [h] at p1; exact p2 (Option.some.inj p1.symm)
    unfold redXEffect
    by_cases himg : s.mainImage = none
    · rw [if_pos himg]
      simp only [LifecycleInv]
      refine ⟨?_, ?_, ?_, ?_, by decide⟩
      · intro h; exact absurd h (by decide)
      · intro h; exact absurd h (by decide)
      · intro h; exact absurd h href
      · intro h; exact absurd h href0
    · rw [if_neg himg]
      simp only [LifecycleInv]
      refine ⟨h1, fun h => absurd (h2 h).2 himg,
        fun h => absurd h href, fun h => absurd h href0, h5⟩

/-- The lifecycle invariant holds in every reachable state. -/
theorem reachable_lifecycle_inv {s : MState} (h : Reachable s) :
    LifecycleInv s := by
  induction h with
  | init img d => exact lifecycle_inv_init img d
  | step _ hst ih => exact lifecycle_inv_step ih hst

/-- A freshly inserted record after its displayable delivery. -/
theorem reach_delivered : Reachable
    { status := .unchecked, mainRef := some 5, secRef := none,
      mainButtons := bothButtons, mainImage := some "img",
      imageUrl := some "img", displayable := true } :=
  Reachable.step (Reachable.init (some "img") true)
    (Step.deliver _ 5 rfl rfl (by decide))

/-- Continuation of `reach_delivered`: then marked interesting (mirror message 7). -/
theorem reach_interesting : Reachable
    { status := .interesting, mainRef := some 5, secRef := some 7,
      mainButtons := [⟨.interesting_listing, true⟩,
                      ⟨.not_good_listing, false⟩],
      mainImage := some "img", imageUrl := some "img",
      displayable := true } :=
  Reachable.step reach_delivered (Step.interestingBtn _ 7 (by decide))

/-- Continuation of `reach_interesting`: "Pas bien" pressed while Interesting: status NotGood but the
secondary message id is still set. -/
theorem reach_notgood_with_secondary : Reachable
    { status := .notGood, mainRef := some 5, secRef := some 7,
      mainButtons := [], mainImage := none, imageUrl := some "img",
      displayable := true } :=
  Reachable.step reach_interesting (Step.notGoodBtn _ (by decide))

/-- C4 counterexample: pressing "Pas bien" while a listing is Interesting
reaches a state whose status is NotGood while the secondary
(interesting-channel) message id is still set — `handle_not_good_button`
never clears it, so "secondary ref set iff status Interesting" fails. -/
theorem secondary_ref_iff_fails :
    Reachable
      { status := .notGood, mainRef := some 5, secRef := some 7,
        mainButtons := [], mainImage := none, imageUrl := some "img",
        displayable := true } ∧
    ({ status := .notGood, mainRef := some 5, secRef := some 7,
       mainButtons := [], mainImage := none, imageUrl := some "img",
       displayable := true } : MState).status = .notGood ∧
    ({ status := .notGood, mainRef := some 5, secRef := some 7,
       mainButtons := [], mainImage := none, imageUrl := some "img",
       displayable := true } : MState).secRef = some 7 :=
  ⟨reach_notgood_with_secondary, rfl, rfl⟩

/-- C4 amended: in every reachable state the secondary message id is set
*whenever* the status is Interesting (one direction of the claimed "iff");
the remove-from-interesting transition clears it and resets the status,
while the "mark not good" transition leaves the secondary message id
untouched (it does not clear it, even when pressed from Interesting). -/
theorem secondary_ref_invariant :
    (∀ s : MState, Reachable s → s.status = .interesting →
      s.secRef.isSome = true) ∧
    (∀ s : MState, (removeEffect s).secRef = none ∧
      (removeEffect s).status = .unchecked) ∧
    (∀ s : MState, (notGoodEffect s).secRef = s.secRef) :=
  ⟨fun _ hr hs => (reachable_lifecycle_inv hr).1 hs,
   fun _ => ⟨rfl, rfl⟩, fun _ => rfl⟩

/-- Closed instantiation of `secondary_ref_invariant`. -/
theorem secondary_ref_invariant_witness :
    ({ status := .interesting, mainRef := some 5, secRef := some 7,
       mainButtons := [⟨.interesting_listing, true⟩,
                       ⟨.not_good_listing, false⟩],
       mainImage := some "img", imageUrl := some "img",
       displayable := true } : MState).secRef.isSome = true ∧
    (removeEffect (initState none true)).secRef = none ∧
    (notGoodEffect (initState (some "i") false)).secRef = none :=
  ⟨secondary_ref_invariant.1 _ reach_interesting rfl,
   (secondary_ref_invariant.2.1 (initState none true)).1,
   secondary_ref_invariant.2.2 (initState (some "i") false)⟩

/-- C5 counterexample: from a reachable Interesting state there is an
implemented transition (the still-enabled "Pas bien" button) to NotGood,
so "from Interesting the only reachable next status is Unchecked" fails. -/
theorem interesting_to_notgood_step :
    Reachable
      { status := .interesting, mainRef := some 5, secRef := some 7,
        mainButtons := [⟨.interesting_listing, true⟩,
                        ⟨.not_good_listing, false⟩],
        mainImage := some "img", imageUrl := some "img",
        displayable := true } ∧
    Step
      { status := .interesting, mainRef := some 5, secRef := some 7,
        mainButtons := [⟨.interesting_listing, true⟩,
                        ⟨.not_good_listing, false⟩],
        mainImage := some "img", imageUrl := some "img",
        displayable := true }
      { status := .notGood, mainRef := some 5, secRef := some 7,
        mainButtons := [], mainImage := none, imageUrl := some "img",
        displayable := true } ∧
    ({ status := .interesting, mainRef := some 5, secRef := some 7,
       mainButtons := [⟨.interesting_listing, true⟩,
                       ⟨.not_good_listing, false⟩],
       mainImage := some "img", imageUrl := some "img",
       displayable := true } : MState).status = .interesting ∧
    ({ status := .notGood, mainRef := some 5, secRef := some 7,
       mainButtons := [], mainImage := none, imageUrl := some "img",
       displayable := true } : MState).status = .notGood :=
  ⟨reach_interesting, Step.notGoodBtn _ (by decide), rfl, rfl⟩

/-- C5 amended: every reachable status lies in
{Unchecked, Interesting, NotGood} — Verified is never assigned; every
transition from a reachable NotGood state goes to Unchecked; and a
transition from Interesting either keeps the status or moves it to
Unchecked *or NotGood* (the "Pas bien" control stays enabled on an
Interesting listing's primary message). -/
theorem state_machine_closure :
    (∀ s : MState, Reachable s → s.status ≠ .verified) ∧
    (∀ s s' : MState, Reachable s → Step s s' → s.status = .notGood →
      s'.status = .unchecked) ∧
    (∀ s s' : MState, Step s s' → s.status = .interesting →
      s'.status = .unchecked ∨ s'.status = .notGood ∨
        s'.status = .interesting) := by
  refine ⟨fun s hr => (reachable_lifecycle_inv hr).2.2.2.2, ?_, ?_⟩
  · intro s s' hr hst hng
    have inv := reachable_lifecycle_inv hr
    cases hst with
    | deliver msgId p1 p2 p3 =>
      rw [(inv.2.2.1 p1).2.1] at hng; exact absurd hng (by decide)
    | suppress p1 p2 =>
      rw [(inv.2.2.1 p1).2.1] at hng; exact absurd hng (by decide)
    | interestingBtn secMsg p =>
      rw [(inv.2.1 hng).1] at p; exact absurd p (by simp)
    | removeBtn p => rfl
    | notGoodBtn p =>
      rw [(inv.2.1 hng).1] at p; exact absurd p (by simp)
    | redX m p1 p2 =>
      unfold redXEffect
      rw [if_pos (inv.2.1 hng).2]
  · intro s s' hst hi
    cases hst with
    | deliver msgId p1 p2 p3 => exact Or.inr (Or.inr hi)
    | suppress p1 p2 => exact Or.inr (Or.inr hi)
    | interestingBtn secMsg p => exact Or.inr (Or.inr rfl)
    | removeBtn p => exact Or.inl rfl
    | notGoodBtn p => exact Or.inr (Or.inl rfl)
    | redX m p1 p2 =>
      unfold redXEffect
      by_cases himg : s.mainImage = none
      · rw [if_pos himg]; exact Or.inl rfl
      · rw [if_neg himg]; exact Or.inr (Or.inr hi)

/-- Closed instantiation of `state_machine_closure`. -/
theorem state_machine_closure_witness :
    (initState none true).status ≠ .verified ∧
    (redXEffect
      { status := .notGood, mainRef := some 5, secRef := some 7,
        mainButtons := [], mainImage := none, imageUrl := some "img",
        displayable := true }).status = .unchecked ∧
    ((notGoodEffect
        { status := .interesting, mainRef := some 5, secRef := some 7,
          mainButtons := [⟨.interesting_listing, true⟩,
                          ⟨.not_good_listing, false⟩],
          mainImage := some "img", imageUrl := some "img",
          displayable := true }).status = .unchecked ∨
      (notGoodEffect
        { status := .interesting, mainRef := some 5, secRef := some 7,
          mainButtons := [⟨.interesting_listing, true⟩,
                          ⟨.not_good_listing, false⟩],
          mainImage := some "img", imageUrl := some "img",
          displayable := true }).status = .notGood ∨
      (notGoodEffect
        { status := .interesting, mainRef := some 5, secRef := some 7,
          mainButtons := [⟨.interesting_listing, true⟩,
                          ⟨.not_good_listing, false⟩],
          mainImage := some "img", imageUrl := some "img",
          displayable := true }).status = .interesting) :=
  ⟨state_machine_closure.1 _ (Reachable.init none true),
   state_machine_closure.2.1 _ _ reach_notgood_with_secondary
     (Step.redX _ 5 rfl (by decide)) rfl,
   state_machine_closure.2.2 _ _ (Step.notGoodBtn _ (by decide)) rfl⟩

/-! ## Description truncation (C9) -/

/-- C9: the truncation is not total.  On a description of 299 ASCII
characters followed by one two-byte character (total 301 bytes), byte
index 300 falls inside the final character, so Rust's `&desc[..300]`
panics; the model returns `none` both for the truncation itself and for
the whole delivery that renders it. -/
theorem truncation_panics_on_multibyte :
    truncate_description (String.mk (List.replicate 299 'a' ++ ['é']))
      = none ∧
    send_listing_notification []
      ⟨"lbc_6", "T6", some 1, none, "Lyon", "u6", none,
       some (String.mk (List.replicate 299 'a' ++ ['é'])), 0, "leboncoin"⟩
      2 77 = none := by
  set_option maxRecDepth 4000 in
  constructor
  · rfl
  · rfl

/-! ## Correlation codec (C1) -/

/-- Unfolding lemma for `splitGo` on a non-empty list with fuel left. -/
theorem splitGo_succ_cons (sep : List Char) (f : Nat) (x : Char)
    (xs acc : List Char) :
    splitGo sep (f + 1) (x :: xs) acc =
      if leadMatch sep (x :: xs) then
        acc.reverse :: splitGo sep f ((x :: xs).drop sep.length) []
      else splitGo sep f xs (x :: acc) := rfl

/-- Evaluation of `splitGo` on the empty list. -/
theorem splitGo_nil_list (sep : List Char) (fuel : Nat) (acc : List Char) :
    splitGo sep fuel [] acc = [acc.reverse] := by
  cases fuel <;> rfl

/-- The pattern matches at the head of `sep ++ t`. -/
theorem leadMatch_self_append (sep t : List Char) :
    leadMatch sep (sep ++ t) = true := by
  induction sep with
  | nil => rfl
  | cons a as ih => simp [leadMatch, ih]

/-- A list in which the pattern occurs nowhere is not split. -/
theorem splitGo_no_occ (sep : List Char) :
    ∀ (xs : List Char) (fuel : Nat) (acc : List Char),
      (∀ i, leadMatch sep (xs.drop i) = false) →
      splitGo sep fuel xs acc = [acc.reverse ++ xs] := by
  intro xs
  induction xs with
  | nil => intro fuel acc _; simp [splitGo_nil_list]
  | cons x xs ih =>
    intro fuel acc h
    cases fuel with
    | zero => rfl
    | succ f =>
      have h0 := h 0
      simp only [List.drop_zero] at h0
      rw [splitGo_succ_cons, if_neg (by simp [h0])]
      rw [ih f (x :: acc) (fun i => by simpa using h (i + 1))]
      simp

/-- Splitting `pre ++ sep ++ b` when no occurrence of `sep` starts inside
`pre` and none occurs in `b`: exactly two parts. -/
theorem splitGo_mid (sep : List Char) (hsep : sep ≠ []) (b : List Char)
    (hb : ∀ i, leadMatch sep (b.drop i) = false) :
    ∀ (pre : List Char) (fuel : Nat) (acc : List Char),
      pre.length + b.length + 1 ≤ fuel →
      (∀ i < pre.length,
        leadMatch sep ((pre ++ (sep ++ b)).drop i) = false) →
      splitGo sep fuel (pre ++ (sep ++ b)) acc = [acc.reverse ++ pre, b] := by
  intro pre
  induction pre with
  | nil =>
    intro fuel acc hfuel _
    simp only [List.nil_append]
    cases fuel with
    | zero => omega
    | succ f =>
      obtain ⟨s0, sep', hs⟩ : ∃ s0 sep', sep = s0 :: sep' := by
        cases sep with
        | nil => exact absurd rfl hsep
        | cons a as => exact ⟨a, as, rfl⟩
      subst hs
      simp only [List.cons_append]
      rw [splitGo_succ_cons,
        if_pos (by simpa using leadMatch_self_append (s0 :: sep') b)]
      have hdrop : (s0 :: (sep' ++ b)).drop (s0 :: sep').length = b := by
        simpa using List.drop_left (s0 :: sep') b
      rw [hdrop, splitGo_no_occ _ b f [] hb]
      simp
  | cons p pre ih =>
    intro fuel acc hfuel hpre
    cases fuel with
    | zero => simp at hfuel
    | succ f =>
      simp only [List.cons_append]
      have h0 := hpre 0 (by simp)
      simp only [List.drop_zero, List.cons_append] at h0
      rw [splitGo_succ_cons, if_neg (by simp [h0])]
      rw [ih f (p :: acc) (by simp at hfuel ⊢; omega)
        (fun i hi => by
          have := hpre (i + 1) (by simpa using Nat.succ_lt_succ hi)
          simpa using this)]
      simp

/-- If the bounded occurrence scan is negative, the pattern occurs at no
position at all. -/
theorem occursIn_false_all (sep xs : List Char)
    (h : occursIn sep xs = false) :
    ∀ i, leadMatch sep (xs.drop i) = false := by
  have hall : ∀ j, j < xs.length + 1 → leadMatch sep (xs.drop j) = false := by
    simpa [occursIn, List.any_eq_false, List.mem_range] using h
  intro i
  by_cases hi : i ≤ xs.length
  · exact hall i (by omega)
  · have h1 : xs.drop i = [] := List.drop_eq_nil_of_le (by omega)
    have h2 : xs.drop xs.length = [] := List.drop_eq_nil_of_le le_rfl
    have := hall xs.length (by omega)
    rw [h2] at this
    rw [h1]
    exact this

/-- Every character of a canonical UUID rendering is a hyphen or a
lowercase hex digit. -/
theorem uuid_mem_chars (u : List Char) (hu : isUuidCanonical u = true) :
    ∀ c ∈ u, c = '-' ∨ isHexLowerDigit c = true := by
  intro c hc
  simp only [isUuidCanonical, Bool.and_eq_true, decide_eq_true_eq,
    List.all_eq_true, List.mem_range] at hu
  obtain ⟨hlen, hall⟩ := hu
  obtain ⟨i, hi, rfl⟩ := List.mem_iff_getElem.1 hc
  have := hall i (by omega)
  rw [List.getD_eq_getElem u ' ' (by omega)] at this
  by_cases hcase : i = 8 ∨ i = 13 ∨ i = 18 ∨ i = 23
  · rw [if_pos hcase] at this
    exact Or.inl (by simpa using this)
  · rw [if_neg hcase] at this
    exact Or.inr this

/-- A lowercase hex digit is not whitespace. -/
theorem hexLower_not_ws (c : Char) (h : isHexLowerDigit c = true) :
    Char.isWhitespace c = false := by
  simp only [isHexLowerDigit, Bool.or_eq_true, Bool.and_eq_true,
    decide_eq_true_eq] at h
  simp only [Char.isWhitespace, Bool.or_eq_false_iff,
    decide_eq_false_iff_not]
  rcases h with ⟨h1, h2⟩ | ⟨h1, h2⟩ <;>
    refine ⟨⟨⟨?_, ?_⟩, ?_⟩, ?_⟩ <;> intro hc <;> subst hc <;>
      first
        | exact absurd h1 (by decide)
        | exact absurd h2 (by decide)

/-- No character of a canonical UUID rendering is whitespace. -/
theorem uuid_chars_not_ws (u : List Char) (hu : isUuidCanonical u = true) :
    ∀ c ∈ u, Char.isWhitespace c = false := by
  intro c hc
  rcases uuid_mem_chars u hu c hc with h | h
  · subst h; decide
  · exact hexLower_not_ws c h

/-- Identity of `dropWhile` when no element satisfies the predicate. -/
theorem dropWhile_of_all_neg {α : Type} {p : α → Bool} :
    ∀ (l : List α), (∀ c ∈ l, p c = false) → l.dropWhile p = l := by
  intro l h
  cases l with
  | nil => rfl
  | cons x xs =>
    rw [List.dropWhile_cons_of_neg]
    simp [h x (by simp)]

/-- Trimming a canonical UUID rendering changes nothing. -/
theorem trim_uuid (u : List Char) (hu : isUuidCanonical u = true) :
    trimChars u = u := by
  have hws := uuid_chars_not_ws u hu
  unfold trimChars
  rw [dropWhile_of_all_neg u hws,
    dropWhile_of_all_neg u.reverse (fun c hc => hws c (by simpa using hc)),
    List.reverse_reverse]

/-- The footer delimiter starts with a space, so it occurs nowhere inside
a canonical UUID rendering. -/
theorem uuid_drop_no_lead (u : List Char) (hu : isUuidCanonical u = true) :
    ∀ i, leadMatch sepChars (u.drop i) = false := by
  intro i
  by_cases hi : i < u.length
  · have hdrop : u.drop i = u[i] :: u.drop (i + 1) :=
      (List.getElem_cons_drop u i hi).symm
    have hne : u[i] ≠ ' ' := by
      intro he
      have hw := uuid_chars_not_ws u hu u[i] (List.getElem_mem hi)
      rw [he] at hw
      exact absurd hw (by decide)
    rw [hdrop]
    show leadMatch ([' ', '|', ' ', 'I', 'D', ':', ' '])
        (u[i] :: u.drop (i + 1)) = false
    simp only [leadMatch, Bool.and_eq_false_iff, decide_eq_false_iff_not]
    exact Or.inl (fun h => hne h.symm)
  · rw [List.drop_eq_nil_of_le (by omega)]
    decide

/-- C1 counterexample: the round trip fails for a source string containing
the delimiter.  With source `"a | ID: b"`, the encoded footer splits at
the *first* delimiter occurrence, `nth(1)` returns `"b"`, parsing fails,
and decoding yields `none` instead of recovering the surrogate. -/
theorem footer_roundtrip_fails_on_delimiter_in_source :
    isUuidCanonical ("123e4567-e89b-12d3-a456-426614174000").data = true ∧
    extract_uuid_from_footer
      (encodeFooter ("a | ID: b").data
        ("123e4567-e89b-12d3-a456-426614174000").data) = none := by
  set_option maxRecDepth 2000 in
  exact ⟨by decide, by decide⟩

/-- C1 amended: the decoder recovers only the surrogate (not the
source/surrogate pair), and the round trip holds exactly when no delimiter
occurrence starts before the encoder's own one — in particular for every
source string that keeps `"Source: <source>"` free of the delimiter.
Decoding any text that contains no delimiter occurrence at all yields
`none` (no correlation), never a crash. -/
theorem footer_codec_roundtrip :
    (∀ source uuid : List Char,
      isUuidCanonical uuid = true →
      noSepBefore sepChars (("Source: ").data ++ source)
        (sepChars ++ uuid) = true →
      extract_uuid_from_footer (encodeFooter source uuid) = some uuid) ∧
    (∀ text : List Char, occursIn sepChars text = false →
      extract_uuid_from_footer text = none) := by
  constructor
  · intro source uuid hu hsep
    have hb := uuid_drop_no_lead uuid hu
    have hpre : ∀ i < (("Source: ").data ++ source).length,
        leadMatch sepChars
          (((("Source: ").data ++ source) ++ (sepChars ++ uuid)).drop i)
          = false := by
      have := hsep
      simp only [noSepBefore, List.all_eq_true, List.mem_range,
        Bool.not_eq_eq_eq_not, Bool.not_true] at this
      exact fun i hi => this i hi
    have henc : encodeFooter source uuid =
        (("Source: ").data ++ source) ++ (sepChars ++ uuid) := by
      simp [encodeFooter, List.append_assoc]
    have hsplit := splitGo_mid sepChars (by decide) uuid hb
      (("Source: ").data ++ source)
      (((("Source: ").data ++ source) ++ (sepChars ++ uuid)).length + 1)
      []
      (by simp [List.length_append, sepChars]; omega)
      hpre
    unfold extract_uuid_from_footer splitSep
    rw [henc, hsplit]
    show parseUuid (trimChars uuid) = some uuid
    rw [trim_uuid uuid hu]
    simp [parseUuid, hu]
  · intro text h
    have hall := occursIn_false_all sepChars text h
    unfold extract_uuid_from_footer splitSep
    rw [splitGo_no_occ sepChars text _ [] hall]
    rfl

/-- Closed instantiation of `footer_codec_roundtrip`. -/
theorem footer_codec_roundtrip_witness :
    extract_uuid_from_footer
      (encodeFooter ("leboncoin").data
        ("123e4567-e89b-12d3-a456-426614174000").data)
      = some ("123e4567-e89b-12d3-a456-426614174000").data ∧
    extract_uuid_from_footer ("hello world").data = none := by
  set_option maxRecDepth 2000 in
  exact ⟨footer_codec_roundtrip.1 _ _ (by decide) (by decide),
    footer_codec_roundtrip.2 _ (by decide)⟩
